import Mathlib

/-!
Shallow embedding of the email-automation pipeline
(`emailProcessor.py`, `processFunc.py`, `emailAutomationSystem.py`,
`email_automation_service.py`).

Python strings are modelled as `List Char`; Python `None`-able values as
`Option`; external collaborators (the LLM, SMTP transport, Zendesk, the
clock) are passed in as explicit oracle parameters.  Observable side
effects (model calls, send attempts, ticket creation, log appends) are
recorded in an event trace returned alongside each result.
-/

namespace EmailAutomation

/-- Python strings, modelled as lists of characters. -/
abbrev Str := List Char

/-- Characters stripped by Python `str.strip()` (ASCII whitespace model). -/
def isPyWs (c : Char) : Bool :=
  c = ' ' || c = '\t' || c = '\n' || c = '\r' || c = '\x0b' || c = '\x0c'

/-- Python `str.strip()`: drop whitespace from both ends. -/
def pyStrip (s : Str) : Str :=
  ((s.dropWhile isPyWs).reverse.dropWhile isPyWs).reverse

/-- Python `str.lower()` (ASCII model). -/
def pyLower (s : Str) : Str := s.map Char.toLower

/-- Python `str.startswith` on the character-list model. -/
def hasPrefixStr : Str → Str → Bool
  | [], _ => true
  | _ :: _, [] => false
  | p :: ps, c :: cs => p == c && hasPrefixStr ps cs

/-- Python `str.endswith` on the character-list model. -/
def endsWithStr (p s : Str) : Bool := hasPrefixStr p.reverse s.reverse

/-- Python truthiness of an optional string (`None` and `""` are falsy). -/
def truthy : Option Str → Bool
  | none => false
  | some s => !s.isEmpty

/-- An email record.  The repository passes emails around as dicts with
string values; the modelled domain restricts the `id`, `from`, `subject`
and `body` fields to strings-or-absent, which covers every claim. -/
structure Email where
  id : Option Str
  from_ : Option Str
  subject : Option Str
  body : Option Str

/-- `processFunc._is_email_valid`: the email must have a truthy `subject`
and a truthy `body` (Python truthiness: a whitespace-only string is
truthy, an empty or missing one is not). -/
def is_email_valid (email : Email) : Bool :=
  truthy email.subject && truthy email.body

end EmailAutomation

namespace EmailAutomation

/-! ### Model of `json.loads`

`classify_email` hands the (fence-stripped) model text to Python's
`json.loads`.  The parser below models it for flat JSON values: objects
whose members are string keys mapped to atomic values (strings without
escape sequences, integers, booleans, null), plus top-level atoms.
Inputs outside this fragment (nested containers, escapes, floats) are
rejected, i.e. behave like a parse failure; no claim depends on them. -/

/-- JSON values as produced by the modelled `json.loads`. -/
inductive Json where
  | str (s : Str)
  | num (n : Int)
  | bool (b : Bool)
  | null
  | obj (fields : List (Str × Json))

/-- Scan a JSON string literal body up to its closing quote.
Escape sequences are not modelled: a backslash rejects the input. -/
def takeStringLit : Str → Option (Str × Str)
  | [] => none
  | '"' :: rest => some ([], rest)
  | '\\' :: _ => none
  | c :: rest =>
    match takeStringLit rest with
    | some (s, r) => some (c :: s, r)
    | none => none

/-- Skip JSON whitespace. -/
def skipJsonWs (s : Str) : Str :=
  s.dropWhile (fun c => c = ' ' || c = '\t' || c = '\n' || c = '\r')

/-- Decimal digits to a natural number. -/
def digitsToNat (ds : Str) : Nat :=
  ds.foldl (fun n c => n * 10 + (c.toNat - 48)) 0

/-- Parse one atomic JSON value (string, integer, boolean, null). -/
def parseScalar (s : Str) : Option (Json × Str) :=
  match s with
  | [] => none
  | '"' :: rest =>
    match takeStringLit rest with
    | some (lit, r) => some (Json.str lit, r)
    | none => none
  | c :: rest =>
    if hasPrefixStr "true".data s then some (Json.bool true, s.drop 4)
    else if hasPrefixStr "false".data s then some (Json.bool false, s.drop 5)
    else if hasPrefixStr "null".data s then some (Json.null, s.drop 4)
    else if c = '-' then
      let ds := rest.takeWhile Char.isDigit
      if ds.isEmpty then none
      else some (Json.num (-(digitsToNat ds : Int)), rest.drop ds.length)
    else
      let ds := s.takeWhile Char.isDigit
      if ds.isEmpty then none
      else some (Json.num (digitsToNat ds), s.drop ds.length)

/-- Parse the members of a JSON object after the opening brace
(non-empty member list).  Fuel bounds the recursion. -/
def parseFields : Nat → Str → Option (List (Str × Json) × Str)
  | 0, _ => none
  | fuel + 1, s =>
    match skipJsonWs s with
    | '"' :: rest =>
      match takeStringLit rest with
      | none => none
      | some (key, r1) =>
        match skipJsonWs r1 with
        | ':' :: r2 =>
          match parseScalar (skipJsonWs r2) with
          | none => none
          | some (v, r3) =>
            match skipJsonWs r3 with
            | ',' :: r4 =>
              match parseFields fuel r4 with
              | some (fs, r5) => some ((key, v) :: fs, r5)
              | none => none
            | '}' :: r4 => some ([(key, v)], r4)
            | _ => none
        | _ => none
    | _ => none

/-- Parse one JSON value (object of atomic members, or a single atom). -/
def parseJsonValue (s : Str) : Option (Json × Str) :=
  match skipJsonWs s with
  | '{' :: rest =>
    match skipJsonWs rest with
    | '}' :: r => some (Json.obj [], r)
    | _ =>
      match parseFields (rest.length + 1) rest with
      | some (fs, r) => some (Json.obj fs, r)
      | none => none
  | t => parseScalar t

/-- Model of `json.loads`: parse a full JSON document, rejecting
trailing content. -/
def json_loads (s : Str) : Option Json :=
  match parseJsonValue s with
  | some (v, rest) => if skipJsonWs rest = [] then some v else none
  | none => none

/-- Python dict lookup on the parsed members: with duplicate keys,
`json.loads` keeps the last occurrence. -/
def pyDictGet (fields : List (Str × Json)) (key : Str) : Option Json :=
  match fields.reverse.find? (fun kv => kv.1 == key) with
  | some kv => some kv.2
  | none => none

/-- Python `str()` on a JSON value, used when the extracted
classification is not a string (`emailProcessor.py` line 112).  The
rendering of containers is abbreviated; no rendering of a non-string
value can hit the five canonical categories, which is all the proofs
use. -/
def pyStr : Json → Str
  | .str s => s
  | .num n => (toString n).data
  | .bool true => "True".data
  | .bool false => "False".data
  | .null => "None".data
  | .obj _ => "\x7bdict\x7d".data

end EmailAutomation

namespace EmailAutomation

/-! ### Classifier (`EmailProcessor.classify_email`) -/

/-- `EmailProcessor.valid_classification`: the closed set of canonical
categories (all lowercase). -/
def valid_classification : List Str :=
  ["complaint".data, "inquiry".data, "feedback".data,
   "support_request".data, "other".data]

/-- `EmailProcessor.classification_case_mapping`: maps each canonical
lowercase category to the canonical output spelling (the identity on
the five categories).  The final branch is unreachable in
`classify_email`, where the lookup is guarded by membership in
`valid_classification`. -/
def classification_case_mapping (s : Str) : Str :=
  if s = "complaint".data then "complaint".data
  else if s = "inquiry".data then "inquiry".data
  else if s = "feedback".data then "feedback".data
  else if s = "support_request".data then "support_request".data
  else if s = "other".data then "other".data
  else s

/-- The key probe of `classify_email` (lines 96-99): the first key
among the accepted spellings that is present in the parsed object. -/
def probe_classification_keys (fields : List (Str × Json)) : Option Json :=
  match pyDictGet fields "classification".data with
  | some v => some v
  | none =>
    match pyDictGet fields "Classification".data with
    | some v => some v
    | none =>
      match pyDictGet fields "category".data with
      | some v => some v
      | none => pyDictGet fields "Category".data

/-- Fence stripping (`classify_email` lines 73-74): if the content is
wrapped in triple backticks, drop three characters from each end
(Python `content[3:-3]`) and strip. -/
def strip_code_fence (content : Str) : Str :=
  if hasPrefixStr "```".data content && endsWithStr "```".data content then
    pyStrip (List.take (content.length - 6) (content.drop 3))
  else content

/-- `classify_email` lines 72-112: fence-strip, parse as JSON, require
an object, probe the accepted key spellings, coerce the value to a
string.  `none` is any of the parse/shape/key failures. -/
def parse_llm_content (content : Str) : Option Str :=
  let inner := strip_code_fence content
  match json_loads inner with
  | none => none
  | some (.obj fields) =>
    match probe_classification_keys fields with
    | none => none
    | some v => some (pyStr v)
  | some _ => none

/-- `classify_email` lines 114-129: strip and lowercase the extracted
value, accept it only if it is in the closed valid set, and return the
canonical spelling; anything else is `none` (never defaulted to
"other"). -/
def normalize_classification (cl : Str) : Option Str :=
  let l := pyLower (pyStrip cl)
  if l ∈ valid_classification then some (classification_case_mapping l) else none

/-- `EmailProcessor.classify_email`.  `llm_output` is the oracle for
`_call_llm`: `none` models a failed call, `some raw` the raw message
content (`_call_llm` returns it stripped, and `classify_email` treats
an empty result like a failure). -/
def classify_email (email : Email) (llm_output : Option Str) : Option Str :=
  if !(is_email_valid email) then none
  else
    match llm_output with
    | none => none
    | some raw =>
      let content0 := pyStrip raw
      if content0.isEmpty then none
      else
        let content := pyStrip content0
        match parse_llm_content content with
        | none => none
        | some cl => normalize_classification cl

/-! ### Response generator (`EmailProcessor.generate_response`) -/

/-- `processFunc._get_fallback_template`: `templates.get(classification,
templates["other"])` — one literal per category; "other" and any
unknown category share the catch-all template. -/
def get_fallback_template (classification : Str) : Str :=
  if classification = "complaint".data then
    "We're sorry to hear about the issue. We've shared your message with our team and will follow up soon.".data
  else if classification = "inquiry".data then
    "Thanks for reaching out! We'll get back to you shortly with more information.".data
  else if classification = "feedback".data then
    "We truly appreciate your kind words. Thank you for letting us know!".data
  else if classification = "support_request".data then
    "Thanks for contacting us. Our team is looking into your issue and will follow up shortly.".data
  else
    "Thanks for your message. We'll review it and respond if needed.".data

/-- `EmailProcessor.generate_response`.  Totality of the definition
models the documented "never raises" behaviour: `_call_llm` catches its
own exceptions and returns `None`, and the surrounding `except` also
resolves to the fallback template.  `llm_output = none` models a failed
generation call; empty output likewise falls back. -/
def generate_response (email : Email) (classification : Str)
    (llm_output : Option Str) : Option Str :=
  if !(is_email_valid email) then none
  else
    let fallback := get_fallback_template classification
    match llm_output with
    | none => some fallback
    | some raw =>
      let content := pyStrip raw
      if content.isEmpty then some fallback else some content

end EmailAutomation

namespace EmailAutomation

/-! ### Outcome logger (`email_automation_service.log_response`) -/

/-- One element of the persisted `sent_responses_log.json` array. -/
structure LogEntry where
  email_id : Str
  recipient : Str
  classification : Str
  timestamp : Str
  response : Str
  status : Str
deriving DecidableEq

/-- `email_automation_service.log_response`.  The wall clock is an
oracle (`timestamp`, the `datetime.now(timezone.utc)` ISO string).
Returns the appended `LogEntry` together with the `full_response`
string the function returns. -/
def log_response (email : Email) (response : Option Str)
    (classification : Str) (status : Str) (timestamp : Str) :
    LogEntry × Str :=
  let response' :=
    match response with
    | none => "No response generated.".data
    | some s => s
  let email_id := match email.id with | some i => i | none => "unknown".data
  let recipient := match email.from_ with | some f => f | none => "unknown".data
  let full_response := response' ++ "\n\n[Sent at ".data ++ timestamp ++ "]".data
  ({ email_id := email_id, recipient := recipient,
     classification := classification, timestamp := timestamp,
     response := full_response, status := status }, full_response)

/-! ### Handlers and pipeline (`EmailAutomationSystem`) -/

/-- Observable side effects of one pipeline run. -/
inductive Event where
  /-- An invocation of `EmailProcessor.classify_email`. -/
  | classifyInvoke
  /-- An external model call (`_call_llm`) made inside `classify_email`. -/
  | llmCall
  /-- A transport send attempt (`send_email` via the per-category send routine). -/
  | sendAttempt
  /-- A ticket-creating extra action (`create_ticket` with the given tag). -/
  | ticketCreated (kind : Str)
  /-- An append to `sent_responses_log.json`. -/
  | logAppend (entry : LogEntry)
deriving DecidableEq

/-- One invocation of `classify_email` as seen from `process_email`:
the external model call happens iff `_is_email_valid` passes. -/
def classify_step (email : Email) (llm_output : Option Str) :
    Option Str × List Event :=
  (classify_email email llm_output,
   Event.classifyInvoke ::
     (if is_email_valid email then [Event.llmCall] else []))

/-- `EmailAutomationSystem._generic_handler`.  `send_fn` records whether
a send routine was supplied (it is, for all five handlers),
`extra_action` the ticket tag of the optional extra action,
`gen_output` the generation-call oracle, `send_raises` the transport
oracle.  The collaborators that the source makes non-raising
(`create_ticket` and the logger) are modelled as total, so the outer
`except` branch of the source is unreachable; the inner `except` around
the send is the early return below, which skips both the extra action
and the log append. -/
def generic_handler (email : Email) (classification : Str)
    (fallback_response : Str) (send_fn : Bool) (extra_action : Option Str)
    (gen_output : Option Str) (send_raises : Bool) (timestamp : Str) :
    (Bool × Str) × List Event :=
  let response :=
    match generate_response email classification gen_output with
    | none => fallback_response
    | some s => if s.isEmpty then fallback_response else s
  if send_fn && send_raises then
    ((false, "error".data), [Event.sendAttempt])
  else
    let sendEvs := if send_fn then [Event.sendAttempt] else []
    let extraEvs :=
      match extra_action with
      | some kind => [Event.ticketCreated kind]
      | none => []
    let entry :=
      (log_response email (some response) classification "success".data timestamp).1
    ((true, "success".data), sendEvs ++ extraEvs ++ [Event.logAppend entry])

/-- `_handle_complaint`: urgent-ticket extra action. -/
def handle_complaint (email : Email) (gen_output : Option Str)
    (send_raises : Bool) (timestamp : Str) : (Bool × Str) × List Event :=
  generic_handler email "complaint".data
    "We apologize, but we could not process your complaint at this time. Our team has been notified and will address this issue promptly.".data
    true (some "complaint".data) gen_output send_raises timestamp

/-- `_handle_inquiry`: no extra action. -/
def handle_inquiry (email : Email) (gen_output : Option Str)
    (send_raises : Bool) (timestamp : Str) : (Bool × Str) × List Event :=
  generic_handler email "inquiry".data
    "Thank you for your inquiry. We're currently experiencing technical difficulties. Our team will get back to you shortly.".data
    true none gen_output send_raises timestamp

/-- `_handle_feedback`: feedback-logging extra action (a ticket tagged
"feedback"). -/
def handle_feedback (email : Email) (gen_output : Option Str)
    (send_raises : Bool) (timestamp : Str) : (Bool × Str) × List Event :=
  generic_handler email "feedback".data
    "Thank you for your feedback. We appreciate you taking the time to share your thoughts with us.".data
    true (some "feedback".data) gen_output send_raises timestamp

/-- `_handle_support_request`: support-ticket extra action. -/
def handle_support_request (email : Email) (gen_output : Option Str)
    (send_raises : Bool) (timestamp : Str) : (Bool × Str) × List Event :=
  generic_handler email "support_request".data
    "Thank you for contacting our support team. We've created a ticket for your issue and will respond as soon as possible.".data
    true (some "support_request".data) gen_output send_raises timestamp

/-- `_handle_other`: no extra action. -/
def handle_other (email : Email) (gen_output : Option Str)
    (send_raises : Bool) (timestamp : Str) : (Bool × Str) × List Event :=
  generic_handler email "other".data
    "Thank you for your message. We've received your email and will review it promptly.".data
    true none gen_output send_raises timestamp

/-- The dispatch table `response_handlers.get(classification,
self._handle_other)`: "other" and the defensive default both select
`_handle_other`. -/
def dispatch_handler (classification : Str) (email : Email)
    (gen_output : Option Str) (send_raises : Bool) (timestamp : Str) :
    (Bool × Str) × List Event :=
  if classification = "complaint".data then
    handle_complaint email gen_output send_raises timestamp
  else if classification = "inquiry".data then
    handle_inquiry email gen_output send_raises timestamp
  else if classification = "feedback".data then
    handle_feedback email gen_output send_raises timestamp
  else if classification = "support_request".data then
    handle_support_request email gen_output send_raises timestamp
  else
    handle_other email gen_output send_raises timestamp

end EmailAutomation

namespace EmailAutomation

/-! ### `EmailAutomationSystem.process_email` -/

/-- The argument of `process_email`: a dict-shaped email, or any other
value (carrying its `str()` rendering and its Python type name). -/
inductive EmailInput where
  | dict (email : Email)
  | notDict (raw : Str) (type_name : Str)

/-- The dictionary `process_email` returns.  A successful run carries
no `error_message` key (`none` here). -/
structure ProcessingResult where
  email_id : Str
  original_email : EmailInput
  classification : Option Str
  response_sent : Option Bool
  status : Str
  error_message : Option Str

/-- Identifier backfill (`process_email` lines 59-62): keep a string id
containing a digit, otherwise use a freshly generated numeric id
(`_generate_numeric_id` draws from a random source, passed here as the
oracle `fresh`). -/
def normalize_id (eid : Option Str) (fresh : Str) : Str :=
  match eid with
  | some s => if s.any Char.isDigit then s else fresh
  | none => fresh

/-- Truncation of the `str()` rendering of a non-dict input
(`process_email` line 50). -/
def pyTruncate (s : Str) : Str :=
  if s.length > 100 then s.take 100 ++ "...".data else s

/-- The `ValueError` message for a missing or blank body
(`process_email` line 70). -/
def body_error_message (email_id : Str) : Str :=
  "Email ".data ++ email_id ++ ": missing or empty 'body' field".data

/-- The `ValueError` message for a failed classification
(`process_email` line 81). -/
def classification_error_message (email_id : Str) : Str :=
  "Email ".data ++ email_id ++ ": classification failed".data

/-- `EmailAutomationSystem.process_email`.  Oracles: `fresh_id` for the
random id generator, `classify_output1`/`classify_output2` for the two
`_call_llm` results consumed by the two `classify_email` invocations
(lines 75-76), `gen_output` for the generation call, `send_raises` for
the transport, `timestamp` for the logging clock. -/
def process_email (input : EmailInput) (fresh_id : Str)
    (classify_output1 classify_output2 gen_output : Option Str)
    (send_raises : Bool) (timestamp : Str) :
    ProcessingResult × List Event :=
  match input with
  | .notDict raw type_name =>
    ({ email_id := "unknown".data,
       original_email := .notDict (pyTruncate raw) type_name,
       classification := none, response_sent := none,
       status := "error".data,
       error_message :=
         some ("Invalid email format: expected dictionary, got ".data ++ type_name) },
     [])
  | .dict email =>
    let email_id := normalize_id email.id fresh_id
    let email' := { email with id := some email_id }
    let bodyErr : ProcessingResult × List Event :=
      ({ email_id := email_id, original_email := .dict email',
         classification := none, response_sent := none,
         status := "error".data,
         error_message := some (body_error_message email_id) }, [])
    -- the body guard runs on the updated dict, but the backfill only
    -- touches `id`, so checking `email.body` is the same check
    match email.body with
    | none => bodyErr
    | some b =>
      if (pyStrip b).isEmpty then bodyErr
      else
        let (_classification, evs1) := classify_step email' classify_output1
        let (classification, evs2) := classify_step email' classify_output2
        match classification with
        | none =>
          ({ email_id := email_id, original_email := .dict email',
             classification := none, response_sent := none,
             status := "error".data,
             error_message := some (classification_error_message email_id) },
           evs1 ++ evs2)
        | some cl =>
          let handled := dispatch_handler cl email' gen_output send_raises timestamp
          ({ email_id := email_id, original_email := .dict email',
             classification := some cl,
             response_sent := some handled.1.1,
             status := handled.1.2,
             error_message := none },
           evs1 ++ evs2 ++ handled.2)

/-! ### Event counters -/

/-- Is the event a log append? -/
def Event.isLog : Event → Bool
  | .logAppend _ => true
  | _ => false

/-- Is the event a ticket creation? -/
def Event.isTicket : Event → Bool
  | .ticketCreated _ => true
  | _ => false

/-- Number of `LogEntry` appends in a trace. -/
def count_log (evs : List Event) : Nat := (evs.filter Event.isLog).length

/-- Number of ticket-creating extra actions in a trace. -/
def count_ticket (evs : List Event) : Nat := (evs.filter Event.isTicket).length

/-- Is the event an external classification model call? -/
def Event.isLlm : Event → Bool
  | .llmCall => true
  | _ => false

/-- Is the event a `classify_email` invocation? -/
def Event.isInvoke : Event → Bool
  | .classifyInvoke => true
  | _ => false

/-- Number of external classification model calls in a trace. -/
def count_llm (evs : List Event) : Nat := (evs.filter Event.isLlm).length

/-- Number of `classify_email` invocations in a trace. -/
def count_invoke (evs : List Event) : Nat := (evs.filter Event.isInvoke).length

/-- The log entries appended in a trace. -/
def logged_entries (evs : List Event) : List LogEntry :=
  evs.foldr (fun e acc => match e with | .logAppend en => en :: acc | _ => acc) []

end EmailAutomation

namespace EmailAutomation

/-! ### Helper lemmas -/

/-- The identifier backfill does not change validity. -/
theorem is_email_valid_set_id (email : Email) (x : Option Str) :
    is_email_valid { email with id := x } = is_email_valid email := rfl

/-- The identifier backfill does not change classification. -/
theorem classify_email_set_id (email : Email) (x : Option Str)
    (out : Option Str) :
    classify_email { email with id := x } out = classify_email email out := rfl

/-- Outcome of `_generic_handler`: `(False, "error")` exactly when a
send routine is present and the send raises, `(True, "success")`
otherwise. -/
theorem generic_handler_fst (email : Email) (cl fb : Str) (sf : Bool)
    (ex : Option Str) (g : Option Str) (sr : Bool) (ts : Str) :
    (generic_handler email cl fb sf ex g sr ts).1 =
      if sf && sr then (false, "error".data) else (true, "success".data) := by
  cases sf <;> cases sr <;> simp [generic_handler]

/-- `_generic_handler` appends no `LogEntry` when the send raises, and
exactly one otherwise. -/
theorem generic_handler_count_log (email : Email) (cl fb : Str) (sf : Bool)
    (ex : Option Str) (g : Option Str) (sr : Bool) (ts : Str) :
    count_log (generic_handler email cl fb sf ex g sr ts).2 =
      if sf && sr then 0 else 1 := by
  cases sf <;> cases sr <;> cases ex <;>
    simp [generic_handler, count_log, Event.isLog, List.filter]

/-- `_generic_handler` runs its extra action exactly when the send did
not raise (and an extra action is configured). -/
theorem generic_handler_count_ticket (email : Email) (cl fb : Str)
    (sf : Bool) (ex : Option Str) (g : Option Str) (sr : Bool) (ts : Str) :
    count_ticket (generic_handler email cl fb sf ex g sr ts).2 =
      if sf && sr then 0 else if ex.isSome then 1 else 0 := by
  cases sf <;> cases sr <;> cases ex <;>
    simp [generic_handler, count_ticket, Event.isTicket, List.filter]

/-- `_generic_handler` makes no classification model call. -/
theorem generic_handler_count_llm (email : Email) (cl fb : Str) (sf : Bool)
    (ex : Option Str) (g : Option Str) (sr : Bool) (ts : Str) :
    count_llm (generic_handler email cl fb sf ex g sr ts).2 = 0 := by
  cases sf <;> cases sr <;> cases ex <;>
    simp [generic_handler, count_llm, Event.isLlm, List.filter]

/-- `_generic_handler` invokes `classify_email` zero times. -/
theorem generic_handler_count_invoke (email : Email) (cl fb : Str)
    (sf : Bool) (ex : Option Str) (g : Option Str) (sr : Bool) (ts : Str) :
    count_invoke (generic_handler email cl fb sf ex g sr ts).2 = 0 := by
  cases sf <;> cases sr <;> cases ex <;>
    simp [generic_handler, count_invoke, Event.isInvoke, List.filter]

/-- Outcome of the dispatched handler: every entry of the dispatch
table supplies a send routine, so the outcome only depends on whether
the send raises. -/
theorem dispatch_handler_fst (cl : Str) (email : Email) (g : Option Str)
    (sr : Bool) (ts : Str) :
    (dispatch_handler cl email g sr ts).1 =
      if sr then (false, "error".data) else (true, "success".data) := by
  unfold dispatch_handler handle_complaint handle_inquiry handle_feedback
    handle_support_request handle_other
  repeat' split
  all_goals simp_all [generic_handler_fst]

/-- Log appends of the dispatched handler. -/
theorem dispatch_handler_count_log (cl : Str) (email : Email)
    (g : Option Str) (sr : Bool) (ts : Str) :
    count_log (dispatch_handler cl email g sr ts).2 = if sr then 0 else 1 := by
  unfold dispatch_handler handle_complaint handle_inquiry handle_feedback
    handle_support_request handle_other
  repeat' split
  all_goals simp_all [generic_handler_count_log]

/-- The dispatched handler makes no classification model call. -/
theorem dispatch_handler_count_llm (cl : Str) (email : Email)
    (g : Option Str) (sr : Bool) (ts : Str) :
    count_llm (dispatch_handler cl email g sr ts).2 = 0 := by
  unfold dispatch_handler handle_complaint handle_inquiry handle_feedback
    handle_support_request handle_other
  repeat' split
  all_goals simp_all [generic_handler_count_llm]

/-- The dispatched handler invokes `classify_email` zero times. -/
theorem dispatch_handler_count_invoke (cl : Str) (email : Email)
    (g : Option Str) (sr : Bool) (ts : Str) :
    count_invoke (dispatch_handler cl email g sr ts).2 = 0 := by
  unfold dispatch_handler handle_complaint handle_inquiry handle_feedback
    handle_support_request handle_other
  repeat' split
  all_goals simp_all [generic_handler_count_invoke]

end EmailAutomation

namespace EmailAutomation

/-- The body guard of `process_email` (line 69): the `body` field is
present and non-blank after stripping. -/
def body_check (email : Email) : Bool :=
  match email.body with
  | none => false
  | some b => !(pyStrip b).isEmpty

/-- The three possible `(response_sent, status)` shapes of a
`ProcessingResult`: `(None, "error")` before any handler ran,
`(False, "error")` from a failed handler, `(True, "success")` from a
successful one. -/
theorem process_email_outcomes (input : EmailInput) (fresh : Str)
    (c1 c2 g : Option Str) (sr : Bool) (ts : Str) :
    ((process_email input fresh c1 c2 g sr ts).1.response_sent = none ∧
      (process_email input fresh c1 c2 g sr ts).1.status = "error".data) ∨
    ((process_email input fresh c1 c2 g sr ts).1.response_sent = some false ∧
      (process_email input fresh c1 c2 g sr ts).1.status = "error".data) ∨
    ((process_email input fresh c1 c2 g sr ts).1.response_sent = some true ∧
      (process_email input fresh c1 c2 g sr ts).1.status = "success".data) := by
  cases input with
  | notDict raw tn => exact Or.inl ⟨rfl, rfl⟩
  | dict email =>
    simp only [process_email, classify_step]
    cases email.body with
    | none => exact Or.inl ⟨rfl, rfl⟩
    | some b =>
      cases he : (pyStrip b).isEmpty with
      | true => left; simp [he]
      | false =>
        simp only [he, Bool.false_eq_true, if_false]
        split
        · exact Or.inl ⟨rfl, rfl⟩
        · simp only [dispatch_handler_fst]
          cases sr with
          | false => right; right; simp
          | true => right; left; simp

end EmailAutomation

namespace EmailAutomation

/-- Event counts distribute over trace concatenation. -/
theorem count_llm_append (a b : List Event) :
    count_llm (a ++ b) = count_llm a + count_llm b := by
  simp [count_llm, List.filter_append]

/-- Event counts distribute over trace concatenation. -/
theorem count_invoke_append (a b : List Event) :
    count_invoke (a ++ b) = count_invoke a + count_invoke b := by
  simp [count_invoke, List.filter_append]

/-- Event counts distribute over trace concatenation. -/
theorem count_log_append (a b : List Event) :
    count_log (a ++ b) = count_log a + count_log b := by
  simp [count_log, List.filter_append]

/-- Event counts distribute over trace concatenation. -/
theorem count_ticket_append (a b : List Event) :
    count_ticket (a ++ b) = count_ticket a + count_ticket b := by
  simp [count_ticket, List.filter_append]

/-- A missing or blank body short-circuits the pipeline: the exact
error result, and an empty trace (no classification invocation, no
model call, no send, no log). -/
theorem process_email_body_fail (email : Email) (fresh : Str)
    (c1 c2 g : Option Str) (sr : Bool) (ts : Str)
    (h : body_check email = false) :
    process_email (.dict email) fresh c1 c2 g sr ts =
      ({ email_id := normalize_id email.id fresh,
         original_email := .dict { email with id := some (normalize_id email.id fresh) },
         classification := none, response_sent := none,
         status := "error".data,
         error_message := some (body_error_message (normalize_id email.id fresh)) },
       []) := by
  simp only [process_email]
  cases hb : email.body with
  | none => rfl
  | some b =>
    simp only [body_check, hb, Bool.not_eq_false'] at h
    simp [h]

/-- When the body check passes: `classify_email` is invoked exactly
twice, the external model call happens twice iff the email is valid
(and not at all otherwise), the reported classification is the result
of the second invocation, and a `none` second result yields the
classification-failure error. -/
theorem process_email_body_ok (email : Email) (fresh : Str)
    (c1 c2 g : Option Str) (sr : Bool) (ts : Str)
    (h : body_check email = true) :
    count_invoke (process_email (.dict email) fresh c1 c2 g sr ts).2 = 2 ∧
    count_llm (process_email (.dict email) fresh c1 c2 g sr ts).2 =
      (if is_email_valid email then 2 else 0) ∧
    (process_email (.dict email) fresh c1 c2 g sr ts).1.classification =
      classify_email { email with id := some (normalize_id email.id fresh) } c2 ∧
    (classify_email { email with id := some (normalize_id email.id fresh) } c2 = none →
      (process_email (.dict email) fresh c1 c2 g sr ts).1.status = "error".data ∧
      (process_email (.dict email) fresh c1 c2 g sr ts).1.error_message =
        some (classification_error_message (normalize_id email.id fresh))) := by
  obtain ⟨b, hb, hne⟩ :
      ∃ b, email.body = some b ∧ (pyStrip b).isEmpty = false := by
    revert h
    unfold body_check
    cases email.body with
    | none => intro h; cases h
    | some b => intro h; exact ⟨b, rfl, by rwa [Bool.not_eq_true'] at h⟩
  simp only [process_email, classify_step, hb, hne, Bool.false_eq_true, if_false]
  have hval : is_email_valid
      { id := some (normalize_id email.id fresh), from_ := email.from_,
        subject := email.subject, body := some b } = is_email_valid email := by
    simp [is_email_valid, hb]
  rw [hval]
  cases hcl : classify_email
      { id := some (normalize_id email.id fresh), from_ := email.from_,
        subject := email.subject, body := some b } c2 with
  | none =>
    cases hvv : is_email_valid email <;>
      refine ⟨?_, ?_, ?_, ?_⟩ <;>
        simp [hvv, count_invoke_append, count_llm_append,
          count_invoke, count_llm, Event.isInvoke, Event.isLlm, List.filter]
  | some cl =>
    cases hvv : is_email_valid email <;>
      refine ⟨?_, ?_, ?_, ?_⟩ <;>
        simp only [count_invoke_append, count_llm_append,
          dispatch_handler_count_invoke, dispatch_handler_count_llm] <;>
        simp [hvv, count_invoke, count_llm, Event.isInvoke, Event.isLlm,
          List.filter]

end EmailAutomation

namespace EmailAutomation

/-- `normalize_classification` returns `none` or a canonical category. -/
theorem normalize_classification_closed (cl : Str) :
    normalize_classification cl = none ∨
    normalize_classification cl = some "complaint".data ∨
    normalize_classification cl = some "inquiry".data ∨
    normalize_classification cl = some "feedback".data ∨
    normalize_classification cl = some "support_request".data ∨
    normalize_classification cl = some "other".data := by
  simp only [normalize_classification]
  split
  · rename_i hmem
    simp only [valid_classification, List.mem_cons, List.not_mem_nil,
      or_false] at hmem
    rcases hmem with h | h | h | h | h <;> rw [h] <;> decide
  · left; rfl

/-- `classify_email` returns `none` or a canonical category, whatever
the email and the raw model output are. -/
theorem classify_email_closed (email : Email) (llm_output : Option Str) :
    classify_email email llm_output = none ∨
    classify_email email llm_output = some "complaint".data ∨
    classify_email email llm_output = some "inquiry".data ∨
    classify_email email llm_output = some "feedback".data ∨
    classify_email email llm_output = some "support_request".data ∨
    classify_email email llm_output = some "other".data := by
  cases llm_output with
  | none => left; simp [classify_email]
  | some raw =>
    simp only [classify_email]
    split
    · left; rfl
    · split
      · left; rfl
      · split
        · left; rfl
        · exact normalize_classification_closed _

/-- A concrete well-formed email used to exercise the code on explicit
inputs. -/
def sample_email : Email :=
  { id := some "101".data, from_ := some "customer@example.com".data,
    subject := some "Order issue".data, body := some "I need help".data }

/-- A concrete log timestamp oracle value. -/
def sample_ts : Str := "2025-03-15T10:00:00Z".data

end EmailAutomation

namespace EmailAutomation

/-! ### Claims -/

/-- C1 (counterexample): when the transport send raises, the complaint
handler returns `(False, "error")` but appends NO `LogEntry` at all —
the claimed error-status log append does not happen. -/
theorem claim_C1_counterexample :
    (handle_complaint sample_email (some "reply".data) true sample_ts).1 =
      (false, "error".data) ∧
    count_log (handle_complaint sample_email (some "reply".data) true sample_ts).2 = 0 := by
  exact ⟨rfl, rfl⟩

/-- C1 (amended): the handler appends exactly one LogEntry per
invocation when the send does not raise; when a send routine is present
and the send raises, the handler returns `(False, "error")` early and
appends no LogEntry. -/
theorem claim_C1_handler_logging (email : Email) (classification fallback : Str)
    (send_fn : Bool) (extra_action : Option Str) (gen_output : Option Str)
    (send_raises : Bool) (ts : Str) :
    (generic_handler email classification fallback send_fn extra_action
        gen_output send_raises ts).1 =
      (if send_fn && send_raises then (false, "error".data)
       else (true, "success".data)) ∧
    count_log (generic_handler email classification fallback send_fn
        extra_action gen_output send_raises ts).2 =
      (if send_fn && send_raises then 0 else 1) :=
  ⟨generic_handler_fst email classification fallback send_fn extra_action
      gen_output send_raises ts,
   generic_handler_count_log email classification fallback send_fn
      extra_action gen_output send_raises ts⟩

/-- C2 (counterexample): a non-dict input is an error path on which
`response_sent` is absent (`None`), not `False`. -/
theorem claim_C2_counterexample :
    (process_email (.notDict "not an email".data "str".data) "7".data
        none none none false sample_ts).1.status = "error".data ∧
    (process_email (.notDict "not an email".data "str".data) "7".data
        none none none false sample_ts).1.response_sent ≠ some false ∧
    (process_email (.notDict "not an email".data "str".data) "7".data
        none none none false sample_ts).1.response_sent = none := by
  exact ⟨rfl, by decide, rfl⟩

/-- C2 (amended): for every input to `process_email`,
`response_sent = True` iff `status = "success"`; on every error path
`response_sent` is never `True` — it is absent (`None`) on the
pre-handler error paths and `False` when the handler itself failed. -/
theorem claim_C2_sent_iff_success (input : EmailInput) (fresh : Str)
    (c1 c2 g : Option Str) (sr : Bool) (ts : Str) :
    ((process_email input fresh c1 c2 g sr ts).1.response_sent = some true ↔
      (process_email input fresh c1 c2 g sr ts).1.status = "success".data) ∧
    ((process_email input fresh c1 c2 g sr ts).1.status ≠ "success".data →
      (process_email input fresh c1 c2 g sr ts).1.response_sent = none ∨
      (process_email input fresh c1 c2 g sr ts).1.response_sent = some false) := by
  rcases process_email_outcomes input fresh c1 c2 g sr ts with
    ⟨h1, h2⟩ | ⟨h1, h2⟩ | ⟨h1, h2⟩ <;> rw [h1, h2]
  · exact ⟨⟨fun h => absurd h (by decide), fun h => absurd h (by decide)⟩,
      fun _ => Or.inl rfl⟩
  · exact ⟨⟨fun h => absurd h (by decide), fun h => absurd h (by decide)⟩,
      fun _ => Or.inr rfl⟩
  · exact ⟨⟨fun _ => rfl, fun _ => rfl⟩, fun h => absurd rfl h⟩

/-- C2 (witness): the amended theorem applied to a concrete error run. -/
theorem claim_C2_witness :
    (process_email (.notDict "42".data "int".data) "9".data
        none none none false sample_ts).1.status ≠ "success".data ∧
    ((process_email (.notDict "42".data "int".data) "9".data
        none none none false sample_ts).1.response_sent = none ∨
     (process_email (.notDict "42".data "int".data) "9".data
        none none none false sample_ts).1.response_sent = some false) :=
  ⟨by decide,
   (claim_C2_sent_iff_success (.notDict "42".data "int".data) "9".data
      none none none false sample_ts).2 (by decide)⟩

/-- C3: for every email and raw model output, `classify_email` returns
`None` or one of the five canonical lowercase categories; in
particular the out-of-set value "spam" yields `None`, not "other". -/
theorem claim_C3_closed_categories :
    (∀ (email : Email) (llm_output : Option Str),
      classify_email email llm_output = none ∨
      classify_email email llm_output = some "complaint".data ∨
      classify_email email llm_output = some "inquiry".data ∨
      classify_email email llm_output = some "feedback".data ∨
      classify_email email llm_output = some "support_request".data ∨
      classify_email email llm_output = some "other".data) ∧
    classify_email sample_email
      (some "\x7b\"category\": \"spam\"\x7d".data) = none :=
  ⟨classify_email_closed, rfl⟩

/-- An email whose subject is whitespace-only (blank after trimming but
truthy for Python). -/
def ws_subject_email : Email :=
  { id := some "55".data, from_ := some "c@d.example".data,
    subject := some " ".data, body := some "hello".data }

/-- C4 (counterexample): an email with a whitespace-only subject DOES
reach the model call — the validator tests Python truthiness, which
does not trim, so both classification invocations call the model. -/
theorem claim_C4_counterexample :
    ws_subject_email.subject = some " ".data ∧
    pyStrip " ".data = [] ∧
    count_llm (process_email (.dict ws_subject_email) "9".data
        (some "x".data) (some "x".data) none false sample_ts).2 = 2 := by
  exact ⟨rfl, rfl, rfl⟩

/-- C4 (amended): the model call is made iff the body is present and
non-blank after trimming AND the email passes the truthiness validator
(subject and body non-empty, whitespace-only counting as non-empty);
when the body check fails the pipeline stops with a validation error,
classification absent and an empty trace. -/
theorem claim_C4_eligibility (email : Email) (fresh : Str)
    (c1 c2 g : Option Str) (sr : Bool) (ts : Str) :
    count_llm (process_email (.dict email) fresh c1 c2 g sr ts).2 =
      (if body_check email && is_email_valid email then 2 else 0) ∧
    (body_check email = false →
      (process_email (.dict email) fresh c1 c2 g sr ts).1.status = "error".data ∧
      (process_email (.dict email) fresh c1 c2 g sr ts).1.classification = none ∧
      (process_email (.dict email) fresh c1 c2 g sr ts).2 = []) := by
  constructor
  · cases hbc : body_check email with
    | false =>
      rw [process_email_body_fail email fresh c1 c2 g sr ts hbc]
      simp [count_llm]
    | true =>
      rw [(process_email_body_ok email fresh c1 c2 g sr ts hbc).2.1]
      simp
  · intro hbc
    rw [process_email_body_fail email fresh c1 c2 g sr ts hbc]
    exact ⟨rfl, rfl, rfl⟩

/-- An email with a subject but no body at all. -/
def no_body_email : Email :=
  { id := some "77".data, from_ := some "u@v.example".data,
    subject := some "No body here".data, body := none }

/-- C4 (witness): the amended theorem applied to a body-less email. -/
theorem claim_C4_witness :
    body_check no_body_email = false ∧
    ((process_email (.dict no_body_email) "9".data none none none false
        sample_ts).1.status = "error".data ∧
     (process_email (.dict no_body_email) "9".data none none none false
        sample_ts).1.classification = none ∧
     (process_email (.dict no_body_email) "9".data none none none false
        sample_ts).2 = []) :=
  ⟨by decide,
   (claim_C4_eligibility no_body_email "9".data none none none false
      sample_ts).2 (by decide)⟩

/-- C5: the fenced raw model text with key "Category" and value
"FEEDBACK" has its fence markers stripped and parses to the canonical
category "feedback". -/
theorem claim_C5_fenced_feedback :
    strip_code_fence "```\x7b\"Category\": \"FEEDBACK\"\x7d```".data =
      "\x7b\"Category\": \"FEEDBACK\"\x7d".data ∧
    classify_email sample_email
      (some "```\x7b\"Category\": \"FEEDBACK\"\x7d```".data) =
      some "feedback".data := by
  exact ⟨rfl, rfl⟩

end EmailAutomation

namespace EmailAutomation

/-- C6: the per-category side effect (urgent ticket for complaints,
support ticket for support requests, feedback logging) fires exactly
when the transport send did not raise; a raising send produces no
ticket-creating extra action.  Inquiry and "other" have no side
effect at all. -/
theorem claim_C6_side_effect_gating (email : Email) (gen_output : Option Str)
    (send_raises : Bool) (ts : Str) :
    count_ticket (handle_complaint email gen_output send_raises ts).2 =
      (if send_raises then 0 else 1) ∧
    count_ticket (handle_support_request email gen_output send_raises ts).2 =
      (if send_raises then 0 else 1) ∧
    count_ticket (handle_feedback email gen_output send_raises ts).2 =
      (if send_raises then 0 else 1) ∧
    count_ticket (handle_inquiry email gen_output send_raises ts).2 = 0 ∧
    count_ticket (handle_other email gen_output send_raises ts).2 = 0 := by
  unfold handle_complaint handle_support_request handle_feedback
    handle_inquiry handle_other
  refine ⟨?_, ?_, ?_, ?_, ?_⟩ <;> rw [generic_handler_count_ticket] <;>
    cases send_raises <;> simp

/-- The catch-all fallback template is never the empty string. -/
theorem get_fallback_template_ne_nil (classification : Str) :
    get_fallback_template classification ≠ [] := by
  unfold get_fallback_template
  repeat' split
  all_goals simp

/-- An email failing the validator (missing subject). -/
def invalid_email : Email :=
  { id := some "3".data, from_ := some "x@y.example".data,
    subject := none, body := some "content".data }

/-- C7 (counterexample): on an email that fails the validator,
`generate_response` returns `None` even though the model produced
text — the claimed "always returns a non-absent string for every
input email" is false. -/
theorem claim_C7_counterexample :
    generate_response invalid_email "complaint".data
      (some "model reply".data) = none := rfl

/-- C7 (amended): for every email that passes the validator and every
category, the response generator (total by construction, modelling that
it never raises) returns a non-absent, non-empty string; when the model
call fails or returns blank text the result is exactly the fixed
fallback template of the category, and an unknown category gets the
catch-all default template. -/
theorem claim_C7_generator_fallback (email : Email) (classification : Str)
    (llm_output : Option Str) (h : is_email_valid email = true) :
    generate_response email classification llm_output ≠ none ∧
    generate_response email classification llm_output ≠ some [] ∧
    (llm_output = none →
      generate_response email classification llm_output =
        some (get_fallback_template classification)) ∧
    (∀ raw, llm_output = some raw → pyStrip raw = [] →
      generate_response email classification llm_output =
        some (get_fallback_template classification)) ∧
    (classification ∉ valid_classification →
      get_fallback_template classification =
        "Thanks for your message. We'll review it and respond if needed.".data) := by
  have hcatch : classification ∉ valid_classification →
      get_fallback_template classification =
        "Thanks for your message. We'll review it and respond if needed.".data := by
    intro hmem
    simp only [valid_classification, List.mem_cons, List.not_mem_nil,
      or_false, not_or] at hmem
    obtain ⟨n1, n2, n3, n4, _⟩ := hmem
    unfold get_fallback_template
    rw [if_neg n1, if_neg n2, if_neg n3, if_neg n4]
  simp only [generate_response, h, Bool.not_true, Bool.false_eq_true, if_false]
  cases llm_output with
  | none =>
    refine ⟨by simp, ?_, fun _ => rfl, ?_, hcatch⟩
    · simp [get_fallback_template_ne_nil]
    · intro raw hr; cases hr
  | some raw =>
    cases he : (pyStrip raw).isEmpty with
    | true =>
      simp only [he, if_true]
      refine ⟨by simp, ?_, ?_, ?_, hcatch⟩
      · simp [get_fallback_template_ne_nil]
      · intro hr; cases hr
      · intro r hr _; cases hr; trivial
    | false =>
      simp only [he, Bool.false_eq_true, if_false]
      refine ⟨by simp, ?_, ?_, ?_, hcatch⟩
      · simp only [ne_eq, Option.some.injEq]
        intro hnil
        rw [hnil] at he
        simp at he
      · intro hr; cases hr
      · intro r hr hnil
        cases hr
        rw [hnil] at he
        simp at he

/-- C7 (witness): the amended theorem applied at a valid email whose
generation call failed, yielding the complaint fallback template. -/
theorem claim_C7_witness :
    is_email_valid sample_email = true ∧
    generate_response sample_email "complaint".data none =
      some (get_fallback_template "complaint".data) :=
  ⟨by decide,
   (claim_C7_generator_fallback sample_email "complaint".data none
      (by decide)).2.2.1 rfl⟩

/-- C8: a dict-shaped email whose body is missing or blank after
trimming yields status "error" with the body error message (which
mentions the word "body"), classification absent, and an empty trace —
in particular no model call. -/
theorem claim_C8_missing_body (email : Email) (fresh : Str)
    (c1 c2 g : Option Str) (sr : Bool) (ts : Str)
    (h : body_check email = false) :
    (process_email (.dict email) fresh c1 c2 g sr ts).1.status = "error".data ∧
    (process_email (.dict email) fresh c1 c2 g sr ts).1.classification = none ∧
    (process_email (.dict email) fresh c1 c2 g sr ts).1.error_message =
      some (body_error_message (normalize_id email.id fresh)) ∧
    (∃ s t, s ++ "body".data ++ t =
      body_error_message (normalize_id email.id fresh)) ∧
    (process_email (.dict email) fresh c1 c2 g sr ts).2 = [] := by
  rw [process_email_body_fail email fresh c1 c2 g sr ts h]
  refine ⟨rfl, rfl, rfl, ?_, rfl⟩
  refine ⟨"Email ".data ++ normalize_id email.id fresh ++
    ": missing or empty '".data, "' field".data, ?_⟩
  have hmid : ": missing or empty '".data ++ ("body".data ++ "' field".data) =
      ": missing or empty 'body' field".data := by decide
  simp [body_error_message, List.append_assoc, hmid]

/-- An email whose body is whitespace-only (blank after trimming). -/
def blank_body_email : Email :=
  { id := some "88".data, from_ := some "p@q.example".data,
    subject := some "Subject".data, body := some "   ".data }

/-- C8 (witness): the theorem applied to a blank-body email. -/
theorem claim_C8_witness :
    body_check blank_body_email = false ∧
    ((process_email (.dict blank_body_email) "9".data none none none false
        sample_ts).1.status = "error".data ∧
     (process_email (.dict blank_body_email) "9".data none none none false
        sample_ts).1.classification = none ∧
     (process_email (.dict blank_body_email) "9".data none none none false
        sample_ts).1.error_message =
       some (body_error_message (normalize_id blank_body_email.id "9".data)) ∧
     (∃ s t, s ++ "body".data ++ t =
       body_error_message (normalize_id blank_body_email.id "9".data)) ∧
     (process_email (.dict blank_body_email) "9".data none none none false
        sample_ts).2 = []) :=
  ⟨by decide,
   claim_C8_missing_body blank_body_email "9".data none none none false
      sample_ts (by decide)⟩

/-- An email passing the body check but failing the validator (no
subject), so `classify_email` is invoked but never calls the model. -/
def no_subject_email : Email :=
  { id := some "12".data, from_ := some "u@v.example".data,
    subject := none, body := some "hello".data }

/-- C9 (counterexample): an email that passes the body check but has no
subject: `classify_email` is invoked twice, yet the external
classification call is made ZERO times, not twice as claimed. -/
theorem claim_C9_counterexample :
    body_check no_subject_email = true ∧
    count_invoke (process_email (.dict no_subject_email) "9".data
        (some "x".data) (some "x".data) none false sample_ts).2 = 2 ∧
    count_llm (process_email (.dict no_subject_email) "9".data
        (some "x".data) (some "x".data) none false sample_ts).2 = 0 := by
  exact ⟨rfl, rfl, rfl⟩

/-- C9 (amended): for every dict-shaped email passing the body check,
`classify_email` is invoked exactly twice; the external model call is
made twice when the email passes the validator and zero times
otherwise; the first result is discarded — the reported classification
is exactly the second invocation's result, and a `None` second result
fails the run with the classification-failure error regardless of the
first. -/
theorem claim_C9_double_classification (email : Email) (fresh : Str)
    (c1 c2 g : Option Str) (sr : Bool) (ts : Str)
    (h : body_check email = true) :
    count_invoke (process_email (.dict email) fresh c1 c2 g sr ts).2 = 2 ∧
    count_llm (process_email (.dict email) fresh c1 c2 g sr ts).2 =
      (if is_email_valid email then 2 else 0) ∧
    (process_email (.dict email) fresh c1 c2 g sr ts).1.classification =
      classify_email { email with id := some (normalize_id email.id fresh) } c2 ∧
    (classify_email { email with id := some (normalize_id email.id fresh) } c2 = none →
      (process_email (.dict email) fresh c1 c2 g sr ts).1.status = "error".data ∧
      (process_email (.dict email) fresh c1 c2 g sr ts).1.error_message =
        some (classification_error_message (normalize_id email.id fresh))) :=
  process_email_body_ok email fresh c1 c2 g sr ts h

/-- C9 (witness): the amended theorem applied to a concrete run whose
second classification call fails. -/
theorem claim_C9_witness :
    body_check sample_email = true ∧
    count_invoke (process_email (.dict sample_email) "9".data
        (some "x".data) none none false sample_ts).2 = 2 ∧
    (process_email (.dict sample_email) "9".data
        (some "x".data) none none false sample_ts).1.status = "error".data :=
  ⟨by decide,
   (claim_C9_double_classification sample_email "9".data (some "x".data)
      none none false sample_ts (by decide)).1,
   ((claim_C9_double_classification sample_email "9".data (some "x".data)
      none none false sample_ts (by decide)).2.2.2 rfl).1⟩

/-- C10: every appended LogEntry persists the reply text with the
suffix of the form "[Sent at <timestamp>]" (after two newlines)
appended, where the timestamp is the very value stored in the entry's
timestamp field; the persisted response is never the reply verbatim. -/
theorem claim_C10_log_entry_suffix (email : Email)
    (response classification status ts : Str) :
    (log_response email (some response) classification status ts).1.response =
      response ++ "\n\n[Sent at ".data ++ ts ++ "]".data ∧
    (log_response email (some response) classification status ts).1.timestamp = ts ∧
    (log_response email (some response) classification status ts).1.response ≠
      response := by
  refine ⟨rfl, rfl, ?_⟩
  intro hcontra
  have h0 := congrArg List.length hcontra
  simp [log_response, List.length_append] at h0

end EmailAutomation
